import Mathlib

/-!
Shallow embedding of `src/diary.py`, a Telegram diary bot.

Per-user interaction state lives in `context.user_data`, a dictionary holding
(at most) the keys `"pending_message"` (a dict with `"text"` and `"ts"`) and
`"selected_tags"` (a Python set of strings).  We model it as the structure
`UserData` below; an absent key is `none`.  The three handlers
(`handle_text`, `handle_audio`, `button_handler`) are modelled as pure state
transformers; the records inserted by `store_message` during one event are
returned in the field `stored` of `HandlerResult`, and the user-visible
outcome of the event in the field `reply`.  Timestamps (`datetime` values)
are opaque to the program logic, so they are modelled as `Nat`.
-/

namespace Diary

/-- `{"text": ..., "ts": ...}` stored under `user_data["pending_message"]`
(diary.py lines 119 and 156). -/
structure PendingEntry where
  text : String
  ts : Nat
deriving DecidableEq, Repr

/-- The per-user `context.user_data` dictionary: the two keys the program
uses, each possibly absent.  `selected_tags` is a Python `set` of strings,
modelled as a `Finset String`. -/
structure UserData where
  pending_message : Option PendingEntry
  selected_tags : Option (Finset String)
deriving DecidableEq

/-- One row inserted into `diary_messages` by `store_message`
(diary.py lines 62-74).  The Python code passes `list(selected)`; the order
a Python `set` iterates in is an interpreter detail, so the tags column is
modelled by the underlying set. -/
structure DiaryRecord where
  telegram_id : Nat
  ts : Nat
  text : String
  tags : Finset String
deriving DecidableEq

/-- `telegram.InlineKeyboardButton(text=..., callback_data=...)`. -/
structure InlineKeyboardButton where
  text : String
  callback_data : String
deriving DecidableEq, Repr

/-- `TAGS` (diary.py lines 79-84): key → description, in insertion order
(Python dicts preserve it). -/
def TAGS : List (String × String) :=
  [("Tag1", "Desc 1"), ("Tag2", "Desc 2"), ("Tag3", "Desc 3"), ("Tag4", "Desc 4")]

/-- `TAG_KEYS = list(TAGS.keys())` (diary.py line 89). -/
def TAG_KEYS : List String := TAGS.map Prod.fst

/-- Python `s.replace("_", " ")`: both arguments are single characters, so
the call maps `'_'` to `' '` characterwise (diary.py line 101). -/
def underscoreToSpace (s : String) : String :=
  String.mk (s.data.map fun c => if c = '_' then ' ' else c)

/-- The slices `TAG_KEYS[i:i+2]` for `i in range(0, len(TAG_KEYS), 2)`
(diary.py line 95): the list cut into chunks of two, the last possibly a
singleton. -/
def chunk2 {α : Type} : List α → List (List α)
  | [] => []
  | [a] => [[a]]
  | a :: b :: rest => [a, b] :: chunk2 rest

/-- One tag button (diary.py lines 98-104): marker prefixed when the key is
currently selected, label `key.replace("_", " ")`, callback `f"tag:{key}"`. -/
def tagButton (selected : Finset String) (key : String) : InlineKeyboardButton :=
  ⟨(if key ∈ selected then "✅ " else "") ++ underscoreToSpace key, "tag:" ++ key⟩

/-- `build_keyboard` (diary.py lines 91-108): two tag buttons per row, then
a final row with the single Done button. -/
def build_keyboard (selected : Finset String) : List (List InlineKeyboardButton) :=
  (chunk2 TAG_KEYS).map (fun row => row.map (tagButton selected))
    ++ [[⟨"💾 Done", "done"⟩]]

/-- Modelled from the spec sentence under test in claim C6: the same layout,
but each button labeled with the tag's *description* (spaces substituted for
separator characters), prefixed with the selection marker when selected.
Kept only to compare the claim's wording with the code. -/
def build_keyboard_claimed (selected : Finset String) : List (List InlineKeyboardButton) :=
  (chunk2 TAGS).map (fun row => row.map fun kd =>
    ⟨(if kd.1 ∈ selected then "✅ " else "") ++ underscoreToSpace kd.2, "tag:" ++ kd.1⟩)
    ++ [[⟨"💾 Done", "done"⟩]]

/-- The amended rendering claim, written independently of `build_keyboard`'s
chunking mechanism: row `r` holds the Catalog keys at positions `2r` and
`2r+1`, each button labeled with the tag's *identifier* (spaces substituted
for underscore separators) behind the selection marker, then one final row
with the single Done control. -/
def build_keyboard_amended (selected : Finset String) : List (List InlineKeyboardButton) :=
  ((List.range ((TAG_KEYS.length + 1) / 2)).map fun r =>
    ((TAG_KEYS.drop (2 * r)).take 2).map fun key =>
      ⟨(if key ∈ selected then "✅ " else "") ++ underscoreToSpace key, "tag:" ++ key⟩)
    ++ [[⟨"💾 Done", "done"⟩]]

/-- Python `data.startswith(pre)` (diary.py line 183). -/
def pyStartsWith (pre s : String) : Bool :=
  s.data.take pre.data.length == pre.data

/-- Python `data.split(sep, 1)[1]` for a one-character separator
(diary.py line 184): everything after the first occurrence of `sep`.  The
caller guards with `startswith`, so the separator is present. -/
def afterFirstSep (sep : Char) (s : String) : String :=
  String.mk ((s.data.dropWhile (fun c => c != sep)).drop 1)

/-- diary.py lines 185-188: flip membership of `tag` in the selected set. -/
def toggleSet (tag : String) (selected : Finset String) : Finset String :=
  if tag ∈ selected then selected.erase tag else insert tag selected

/-- Python whitespace for `str.strip()`, restricted to the ASCII whitespace
characters. -/
def isPySpace (c : Char) : Bool :=
  c = ' ' || c = '\t' || c = '\n' || c = '\r' || c = '\x0b' || c = '\x0c'

/-- Python `s.strip()` (diary.py line 148): drop leading and trailing
whitespace. -/
def pyStrip (s : String) : String :=
  String.mk (((s.data.dropWhile isPySpace).reverse.dropWhile isPySpace).reverse)

/-- `transcribe` (diary.py lines 142-148) modulo the external Whisper call:
given the text the service returned, the function returns `resp.text.strip()`. -/
def transcribe (respText : String) : String := pyStrip respText

/-- The effect of `handle_text` on `context.user_data` (diary.py lines
119-120): unconditionally overwrite both keys, whatever was there before.
The echo reply is I/O and carries no state. -/
def handle_text (text : String) (ts : Nat) (_ud : UserData) : UserData :=
  ⟨some ⟨text, ts⟩, some ∅⟩

/-- The effect of `handle_audio` on `context.user_data` (diary.py lines
155-157): seed the session with the stripped transcription, exactly like
the text path. -/
def handle_audio (respText : String) (ts : Nat) (_ud : UserData) : UserData :=
  ⟨some ⟨transcribe respText, ts⟩, some ∅⟩

/-- What the user sees as the outcome of one `button_handler` event. -/
inductive Reply where
  /-- "Nothing to store – please send a new message first." (line 177) -/
  | nothingToStore
  /-- `edit_message_reply_markup` with a fresh keyboard (line 190) -/
  | markup (kb : List (List InlineKeyboardButton))
  /-- "Saved! ✅" (line 203) -/
  | saved
  /-- the persistence call raised; the exception propagates to
  `error_handler` and nothing after line 199 runs -/
  | errorRaised
  /-- callback data matching no branch: the handler falls through -/
  | noAction
deriving DecidableEq

/-- Result of one `button_handler` event: the new `user_data`, the records
inserted by `store_message` during the event, and the user-visible reply. -/
structure HandlerResult where
  ud : UserData
  stored : List DiaryRecord
  reply : Reply
deriving DecidableEq

/-- `button_handler` (diary.py lines 170-205).  `storeOk` says whether the
`store_message` insert succeeds; when it raises, execution stops at line
199, so `user_data` is left untouched and nothing was persisted. -/
def button_handler (uid : Nat) (data : String) (storeOk : Bool)
    (ud : UserData) : HandlerResult :=
  match ud.pending_message with
  | none => ⟨ud, [], Reply.nothingToStore⟩
  | some pending =>
    let selected := ud.selected_tags.getD ∅
    if pyStartsWith "tag:" data then
      let tag := afterFirstSep ':' data
      let selected' := if tag ∈ selected then selected.erase tag
                       else insert tag selected
      ⟨⟨some pending, some selected'⟩, [], Reply.markup (build_keyboard selected')⟩
    else if data = "done" then
      if storeOk then
        ⟨⟨none, none⟩, [⟨uid, pending.ts, pending.text, selected⟩], Reply.saved⟩
      else
        ⟨ud, [], Reply.errorRaised⟩
    else
      ⟨ud, [], Reply.noAction⟩

/-- A sequence of toggle callback events, each delivered to
`button_handler` as `f"tag:{t}"` with a healthy persistence layer. -/
def applyToggles (uid : Nat) (toggles : List String) (ud : UserData) : UserData :=
  toggles.foldl (fun u t => (button_handler uid ("tag:" ++ t) true u).ud) ud

/-! ### Helper lemmas -/

theorem pyStartsWith_tag (t : String) : pyStartsWith "tag:" ("tag:" ++ t) = true := by
  simp [pyStartsWith, String.data_append]

theorem afterFirstSep_tag (t : String) : afterFirstSep ':' ("tag:" ++ t) = t := by
  simp [afterFirstSep, String.data_append, List.dropWhile]

theorem button_handler_toggle (uid : Nat) (b : Bool) (p : PendingEntry)
    (osel : Option (Finset String)) (t : String) :
    button_handler uid ("tag:" ++ t) b ⟨some p, osel⟩ =
      ⟨⟨some p, some (toggleSet t (osel.getD ∅))⟩, [],
        Reply.markup (build_keyboard (toggleSet t (osel.getD ∅)))⟩ := by
  simp [button_handler, pyStartsWith_tag, afterFirstSep_tag, toggleSet]

theorem button_handler_done_ok (uid : Nat) (p : PendingEntry)
    (osel : Option (Finset String)) :
    button_handler uid "done" true ⟨some p, osel⟩ =
      ⟨⟨none, none⟩, [⟨uid, p.ts, p.text, osel.getD ∅⟩], Reply.saved⟩ := rfl

theorem button_handler_done_fail (uid : Nat) (p : PendingEntry)
    (osel : Option (Finset String)) :
    button_handler uid "done" false ⟨some p, osel⟩ =
      ⟨⟨some p, osel⟩, [], Reply.errorRaised⟩ := rfl

theorem button_handler_no_session (uid : Nat) (data : String) (b : Bool)
    (osel : Option (Finset String)) :
    button_handler uid data b ⟨none, osel⟩ =
      ⟨⟨none, osel⟩, [], Reply.nothingToStore⟩ := rfl

theorem applyToggles_cons (uid : Nat) (t : String) (ts : List String) (u : UserData) :
    applyToggles uid (t :: ts) u =
      applyToggles uid ts ((button_handler uid ("tag:" ++ t) true u).ud) := rfl

theorem applyToggles_state (uid : Nat) (toggles : List String) (p : PendingEntry)
    (s : Finset String) :
    applyToggles uid toggles ⟨some p, some s⟩ =
      ⟨some p, some (toggles.foldl (fun acc t => toggleSet t acc) s)⟩ := by
  induction toggles generalizing s with
  | nil => rfl
  | cons t ts ih =>
    rw [applyToggles_cons, button_handler_toggle]
    simpa using ih (toggleSet t s)

theorem mem_toggleSet_self (x : String) (s : Finset String) :
    x ∈ toggleSet x s ↔ ¬ x ∈ s := by
  by_cases hs : x ∈ s <;> simp [toggleSet, hs]

theorem mem_toggleSet_other (t x : String) (hxt : x ≠ t) (s : Finset String) :
    x ∈ toggleSet t s ↔ x ∈ s := by
  by_cases hs : t ∈ s <;> simp [toggleSet, hs, hxt]

theorem mem_foldl_toggleSet (x : String) (toggles : List String) (s : Finset String) :
    (x ∈ toggles.foldl (fun acc t => toggleSet t acc) s ↔
      Xor' (x ∈ s) (Odd (toggles.count x))) := by
  induction toggles generalizing s with
  | nil => simp [Xor']
  | cons t ts ih =>
    rw [List.foldl_cons, ih]
    by_cases hxt : x = t
    · subst hxt
      have h2 : (x :: ts).count x = ts.count x + 1 := by simp
      rw [h2, Nat.odd_add_one]
      by_cases hs : x ∈ s <;> by_cases hc : Odd (ts.count x) <;>
        simp [Xor', mem_toggleSet_self, hs, hc]
    · have hts : t ≠ x := Ne.symm hxt
      have h2 : (t :: ts).count x = ts.count x := by
        simp [List.count_cons, hts]
      rw [h2, mem_toggleSet_other t x hxt]

theorem dropWhile_self_append {α : Type} (p : α → Bool) (z tl : List α)
    (hy : (z ++ tl).dropWhile p = z ++ tl) : z.dropWhile p = z := by
  rw [List.dropWhile_eq_self_iff] at hy ⊢
  intro hl
  have hl' : 0 < (z ++ tl).length := by
    rw [List.length_append]; omega
  have hz := hy hl'
  have hg : (z ++ tl).get ⟨0, hl'⟩ = z.get ⟨0, hl⟩ := by
    simp [List.get_eq_getElem, List.getElem_append_left hl]
  rwa [hg] at hz

/-! ### Claims -/

/-- Claim C1: pressing "done" with an active session persists exactly one
DiaryRecord, whose tags are exactly the selected set at the moment "done"
was pressed (possibly empty), and whose text and timestamp are those of the
pending entry seeded at the last beginSession; the session is then cleared. -/
theorem C1_done_persists_selected (uid : Nat) (txt : String) (ts0 : Nat)
    (toggles : List String) (ud0 : UserData) :
    (button_handler uid "done" true
        (applyToggles uid toggles (handle_text txt ts0 ud0))).stored =
      [⟨uid, ts0, txt,
        (applyToggles uid toggles (handle_text txt ts0 ud0)).selected_tags.getD ∅⟩] ∧
    (button_handler uid "done" true
        (applyToggles uid toggles (handle_text txt ts0 ud0))).ud = ⟨none, none⟩ := by
  have hx : handle_text txt ts0 ud0 = (⟨some ⟨txt, ts0⟩, some ∅⟩ : UserData) := rfl
  rw [hx, applyToggles_state, button_handler_done_ok]
  exact ⟨rfl, rfl⟩

/-- Claim C2: with an active session, one toggle of `t` flips `t`'s
membership and leaves every other identifier's membership unchanged
(whether or not `t` is in the Catalog); and after any sequence of toggles
since the last beginSession, `x` is selected iff `x` was toggled an odd
number of times. -/
theorem C2_toggle_parity (uid : Nat) (b : Bool) (p : PendingEntry)
    (s : Finset String) (t : String) (txt : String) (ts0 : Nat)
    (toggles : List String) (x : String) (ud0 : UserData) :
    (∀ u : String,
      (u ∈ (button_handler uid ("tag:" ++ t) b ⟨some p, some s⟩).ud.selected_tags.getD ∅ ↔
        if u = t then ¬ u ∈ s else u ∈ s)) ∧
    (x ∈ (applyToggles uid toggles (handle_text txt ts0 ud0)).selected_tags.getD ∅ ↔
      Odd (toggles.count x)) := by
  constructor
  · intro u
    rw [button_handler_toggle]
    by_cases hut : u = t
    · subst hut
      simpa using mem_toggleSet_self u s
    · simpa [hut] using mem_toggleSet_other t u hut s
  · have hx : handle_text txt ts0 ud0 = (⟨some ⟨txt, ts0⟩, some ∅⟩ : UserData) := rfl
    rw [hx, applyToggles_state]
    simpa [Xor'] using mem_foldl_toggleSet x toggles ∅

/-- Claim C2, exercised at a concrete run: from a fresh session, toggling
Tag1, Tag1, Tag2 leaves exactly Tag2 selected (Tag2 was toggled once). -/
theorem C2_toggle_parity_witness :
    ("Tag2" ∈ (applyToggles 7 ["Tag1", "Tag1", "Tag2"]
        (handle_text "Hello world" 5 ⟨none, none⟩)).selected_tags.getD ∅ ↔
      Odd (["Tag1", "Tag1", "Tag2"].count "Tag2")) :=
  (C2_toggle_parity 7 true ⟨"Hello world", 5⟩ ∅ "Tag1" "Hello world" 5
    ["Tag1", "Tag1", "Tag2"] "Tag2" ⟨none, none⟩).2

/-- Claim C3: completing a session clears it; afterwards any callback
(toggle or done, with the store healthy or not) changes no state, persists
nothing and reports "nothing to store", until a new beginSession seeds a
fresh session. -/
theorem C3_complete_then_no_active (uid : Nat) (p : PendingEntry)
    (osel : Option (Finset String)) (data : String) (b : Bool)
    (txt : String) (ts1 : Nat) :
    (button_handler uid "done" true ⟨some p, osel⟩).ud = ⟨none, none⟩ ∧
    button_handler uid data b (button_handler uid "done" true ⟨some p, osel⟩).ud =
      ⟨(button_handler uid "done" true ⟨some p, osel⟩).ud, [], Reply.nothingToStore⟩ ∧
    (handle_text txt ts1
        (button_handler uid "done" true ⟨some p, osel⟩).ud).pending_message =
      some ⟨txt, ts1⟩ :=
  ⟨rfl, rfl, rfl⟩

/-- Claim C4: a new inbound text or audio message unconditionally replaces
any existing session with the new pending entry and an empty selected set;
two beginSessions in a row keep only the second, with no merge, and the
result never depends on the prior state. -/
theorem C4_begin_overwrites (ud1 ud2 : UserData) (t1 t2 r : String)
    (s1 s2 : Nat) :
    handle_text t2 s2 (handle_text t1 s1 ud1) = ⟨some ⟨t2, s2⟩, some ∅⟩ ∧
    handle_text t2 s2 ud1 = handle_text t2 s2 ud2 ∧
    handle_audio r s2 (handle_text t1 s1 ud1) = ⟨some ⟨transcribe r, s2⟩, some ∅⟩ ∧
    handle_audio r s2 ud1 = handle_audio r s2 ud2 ∧
    handle_text t2 s2 (handle_audio r s1 ud1) = ⟨some ⟨t2, s2⟩, some ∅⟩ :=
  ⟨rfl, rfl, rfl, rfl, rfl⟩

/-- Claim C5: any callback (done or toggle) with no active session yields
the "nothing to store" reply, persists no record and changes no state. -/
theorem C5_no_session_nothing_stored (uid : Nat) (data : String) (b : Bool)
    (osel : Option (Finset String)) :
    button_handler uid data b ⟨none, osel⟩ =
      ⟨⟨none, osel⟩, [], Reply.nothingToStore⟩ :=
  button_handler_no_session uid data b osel

/-- Claim C6, counterexample: the code does not label buttons with the
tag's description; with nothing selected, the rendered keyboard differs
from the claimed one (the first button reads "Tag1", not "Desc 1"). -/
theorem C6_label_counterexample :
    build_keyboard ∅ ≠ build_keyboard_claimed ∅ := by
  decide

/-- Claim C6 as amended: the rendered UI lays out the Catalog tags two per
row in Catalog order, labels each button with the tag's *identifier* with
spaces substituted for underscore separators, prefixes the selection marker
exactly when the tag is selected, and appends one final row with a single
Done control. -/
theorem C6_layout_amended (selected : Finset String) :
    build_keyboard selected = build_keyboard_amended selected := rfl

/-- Claim C7: rendering is a deterministic pure function of the Catalog and
the selected set: it depends only on which Catalog keys are selected, so
any two selected sets agreeing on the Catalog render identically (and in
this embedding the renderer is a function, so it mutates nothing). -/
theorem C7_render_deterministic (s₁ s₂ : Finset String)
    (h : ∀ k, k ∈ TAG_KEYS → (k ∈ s₁ ↔ k ∈ s₂)) :
    build_keyboard s₁ = build_keyboard s₂ := by
  have e1 : ("Tag1" ∈ s₁) = ("Tag1" ∈ s₂) := propext (h _ (by decide))
  have e2 : ("Tag2" ∈ s₁) = ("Tag2" ∈ s₂) := propext (h _ (by decide))
  have e3 : ("Tag3" ∈ s₁) = ("Tag3" ∈ s₂) := propext (h _ (by decide))
  have e4 : ("Tag4" ∈ s₁) = ("Tag4" ∈ s₂) := propext (h _ (by decide))
  show [[tagButton s₁ "Tag1", tagButton s₁ "Tag2"],
        [tagButton s₁ "Tag3", tagButton s₁ "Tag4"],
        [⟨"💾 Done", "done"⟩]] =
       [[tagButton s₂ "Tag1", tagButton s₂ "Tag2"],
        [tagButton s₂ "Tag3", tagButton s₂ "Tag4"],
        [⟨"💾 Done", "done"⟩]]
  simp only [tagButton, e1, e2, e3, e4]

/-- Claim C7, exercised concretely: a selected set carrying an extra
identifier outside the Catalog renders the same keyboard. -/
theorem C7_render_deterministic_witness :
    build_keyboard (insert "Other" {"Tag1"}) = build_keyboard {"Tag1"} :=
  C7_render_deterministic (insert "Other" {"Tag1"}) {"Tag1"} (by decide)

/-- Claim C8: the transcription is trimmed of surrounding whitespace before
use (the stripped text starts and ends with non-whitespace), the audio path
then proceeds exactly as the text path on the trimmed text, and an empty
transcription still creates a session whose pending text is the empty
string. -/
theorem C8_audio_trimmed (raw : String) (ts : Nat) (ud : UserData) :
    handle_audio raw ts ud = handle_text (pyStrip raw) ts ud ∧
    (handle_audio raw ts ud).pending_message = some ⟨pyStrip raw, ts⟩ ∧
    (pyStrip raw).data.dropWhile isPySpace = (pyStrip raw).data ∧
    List.rdropWhile isPySpace (pyStrip raw).data = (pyStrip raw).data ∧
    handle_audio " \t " ts ud = ⟨some ⟨"", ts⟩, some ∅⟩ := by
  have hdata : (pyStrip raw).data =
      List.rdropWhile isPySpace (raw.data.dropWhile isPySpace) := rfl
  refine ⟨rfl, rfl, ?_, ?_, rfl⟩
  · rw [hdata]
    obtain ⟨tl, htl⟩ :=
      List.rdropWhile_prefix isPySpace (raw.data.dropWhile isPySpace)
    refine dropWhile_self_append isPySpace _ tl ?_
    rw [htl]
    exact List.dropWhile_idempotent isPySpace raw.data
  · rw [hdata]
    exact List.rdropWhile_idempotent isPySpace (raw.data.dropWhile isPySpace)

/-- Claim C9: if the persistence write raises while handling "done", the
session is left unchanged — pending entry and selected set retained,
nothing persisted — and pressing "done" again on the very same session
still persists the retained snapshot. -/
theorem C9_store_failure_retains_session (uid : Nat) (p : PendingEntry)
    (osel : Option (Finset String)) :
    button_handler uid "done" false ⟨some p, osel⟩ =
      ⟨⟨some p, osel⟩, [], Reply.errorRaised⟩ ∧
    (button_handler uid "done" true ⟨some p, osel⟩).stored =
      [⟨uid, p.ts, p.text, osel.getD ∅⟩] :=
  ⟨button_handler_done_fail uid p osel, rfl⟩

/-- Claim C10: a toggle never modifies the pending entry: with an active
session, the pending text and timestamp after the toggle are exactly those
from before, and the toggle persists nothing; only the selected set moves. -/
theorem C10_toggle_preserves_pending (uid : Nat) (t : String) (b : Bool)
    (p : PendingEntry) (osel : Option (Finset String)) :
    (button_handler uid ("tag:" ++ t) b ⟨some p, osel⟩).ud.pending_message = some p ∧
    (button_handler uid ("tag:" ++ t) b ⟨some p, osel⟩).stored = [] ∧
    (button_handler uid ("tag:" ++ t) b ⟨some p, osel⟩).ud.selected_tags =
      some (toggleSet t (osel.getD ∅)) := by
  rw [button_handler_toggle]
  exact ⟨rfl, rfl, rfl⟩

end Diary
